import Mathlib

/-!
Shallow embedding of the heat repository's template reference resolution and
section translation (src/heat/engine/hot.py) and of the watch-rule alarm
evaluator (src/heat/engine/watchrule.py), together with theorems checking the
natural-language specification against this embedding.

Python dictionaries are embedded as association lists that preserve insertion
order; Python exceptions become an explicit error type threaded through
`Except`; numeric metric values and thresholds are embedded as rationals
(the claims under study never depend on floating-point rounding).
-/

namespace Heat

/-- A template node: the JSON/YAML-like values that templates, parameters and
resolver inputs are made of.  Python `None` is `null`; mappings are
insertion-ordered association lists with string keys. -/
inductive Value where
  | null
  | bool (b : Bool)
  | int (n : Int)
  | str (s : String)
  | list (elems : List Value)
  | map (entries : List (String × Value))

/-- The Python exceptions that the embedded code can raise.
`keyError` and `attributeError` and `typeError` stand for the corresponding
builtin Python exceptions; the remaining constructors stand for the
`heat.common.exception` classes of the same name. -/
inductive WErr where
  | keyError
  | attributeError
  | typeError
  | userParameterMissing (key : String)
  | invalidTemplateAttribute (resource : String) (key : String)
  | invalidSection (name : String)
  | unknownStatistic (name : String)
deriving DecidableEq, Repr

/-- Python truthiness (`if x:`) for an embedded value: `None`, `False`, `0`,
the empty string, the empty list and the empty dict are falsy. -/
def truthy : Value → Bool
  | .null => false
  | .bool b => b
  | .int n => n != 0
  | .str s => s != ""
  | .list elems => !elems.isEmpty
  | .map entries => !entries.isEmpty

/-- Replace the value stored under `k` in an insertion-ordered association
list, or append a new binding at the end (Python `d[k] = v`). -/
def upsert (k : String) (v : α) : List (String × α) → List (String × α)
  | [] => [(k, v)]
  | (k', v') :: rest => if k' = k then (k, v) :: rest else (k', v') :: upsert k v rest

/-- Python `d.get(k)` on an embedded value that must be a dict: returns
`none` when the key is absent, and raises `AttributeError` when the receiver
is not a mapping (no `.get` attribute). -/
def pyGet : Value → String → Except WErr (Option Value)
  | .map entries, k => .ok (entries.lookup k)
  | _, _ => .error .attributeError

mutual

/-- Modelled from the spec: the generic tree-walking substitution engine
`template._resolve` of the base template module `heat.engine.template`, which
is not under src/.  Per the spec, at a mapping with exactly one key-value pair
where `mtch key value` holds the whole mapping is replaced by `handle value`;
otherwise mappings and sequences are rebuilt recursively and scalars pass
through unchanged. -/
def _resolve (mtch : String → Value → Bool) (handle : Value → Except WErr Value) :
    Value → Except WErr Value
  | .map [(k, v)] =>
    if mtch k v then handle v
    else
      match _resolve mtch handle v with
      | .ok v2 => .ok (.map [(k, v2)])
      | .error e => .error e
  | .map entries =>
    match resolveEntries mtch handle entries with
    | .ok es => .ok (.map es)
    | .error e => .error e
  | .list elems =>
    match resolveItems mtch handle elems with
    | .ok xs => .ok (.list xs)
    | .error e => .error e
  | v => .ok v

def resolveEntries (mtch : String → Value → Bool) (handle : Value → Except WErr Value) :
    List (String × Value) → Except WErr (List (String × Value))
  | [] => .ok []
  | (k, v) :: rest =>
    match _resolve mtch handle v with
    | .ok v2 =>
      match resolveEntries mtch handle rest with
      | .ok rest2 => .ok ((k, v2) :: rest2)
      | .error e => .error e
    | .error e => .error e

def resolveItems (mtch : String → Value → Bool) (handle : Value → Except WErr Value) :
    List Value → Except WErr (List Value)
  | [] => .ok []
  | v :: rest =>
    match _resolve mtch handle v with
    | .ok v2 =>
      match resolveItems mtch handle rest with
      | .ok rest2 => .ok (v2 :: rest2)
      | .error e => .error e
    | .error e => .error e

end

/-- The matcher of `HOTemplate.resolve_param_refs`: the key is `get_param`,
the value is a string, and that string is a key of the supplied parameter
mapping. -/
def match_param_ref (parameters : List (String × Value)) (key : String) (value : Value) : Bool :=
  key == "get_param" &&
    (match value with
     | .str p => (parameters.lookup p).isSome
     | _ => false)

/-- The handler of `HOTemplate.resolve_param_refs`: look the reference up in
the parameter mapping; a failed lookup raises `UserParameterMissing` naming
the reference (the `except (KeyError, ValueError)` clause).  A non-string
reference never reaches the handler (the matcher requires a string); a dict
lookup keyed by such a value would fail, which the clause turns into the same
error with an empty name. -/
def handle_param_ref (parameters : List (String × Value)) (ref : Value) : Except WErr Value :=
  match ref with
  | .str p =>
    match parameters.lookup p with
    | some v => .ok v
    | none => .error (.userParameterMissing p)
  | _ => .error (.userParameterMissing "")

/-- `HOTemplate.resolve_param_refs s parameters`: resolve `{get_param: name}`
constructs in `s` against `parameters`. -/
def resolve_param_refs (s : Value) (parameters : List (String × Value)) : Except WErr Value :=
  _resolve (match_param_ref parameters) (handle_param_ref parameters) s

/-- Modelled from the spec: a resource of the resource runtime (outside
src/), exposing its lifecycle phase as an (action, status) pair of the
constants `CREATE`/`UPDATE`/`IN_PROGRESS`/`COMPLETE` and attribute values
looked up by `FnGetAtt`, which raises a key fault for an unknown attribute. -/
structure Resource where
  action : String
  status : String
  attrs : List (String × Value)

/-- The four lifecycle phases in which `handle_get_attr` resolves an
attribute: `r.state in ((CREATE, IN_PROGRESS), (CREATE, COMPLETE),
(UPDATE, IN_PROGRESS), (UPDATE, COMPLETE))`. -/
def allowedPhase (r : Resource) : Bool :=
  (r.action == "CREATE" && r.status == "IN_PROGRESS") ||
  (r.action == "CREATE" && r.status == "COMPLETE") ||
  (r.action == "UPDATE" && r.status == "IN_PROGRESS") ||
  (r.action == "UPDATE" && r.status == "COMPLETE")

/-- Modelled from the spec: `Resource.FnGetAtt` of the resource runtime
(outside src/) — look the named attribute up, raising a key fault when it is
unknown (a non-string attribute name also fails the lookup). -/
def FnGetAtt (r : Resource) (att : Value) : Except WErr Value :=
  match att with
  | .str a =>
    match r.attrs.lookup a with
    | some v => .ok v
    | none => .error .keyError
  | _ => .error .keyError

/-- Render the attribute argument of a `get_attr` pair for an error message
(it is a string in every matched node). -/
def attName : Value → String
  | .str a => a
  | _ => ""

/-- The matcher of `HOTemplate.resolve_attributes`: the key is `get_attr`,
the value is a two-element list whose first element is a string naming a
resource present in the supplied collection. -/
def match_get_attr (resources : List (String × Resource)) (key : String) (value : Value) : Bool :=
  key == "get_attr" &&
    (match value with
     | .list [.str rname, _] => (resources.lookup rname).isSome
     | _ => false)

/-- The handler of `HOTemplate.resolve_attributes`: look the resource up; in
an allowed lifecycle phase return its attribute, turning a key fault from the
lookup or the attribute fetch into `InvalidTemplateAttribute` naming resource
and attribute; in any other phase yield `None` (the Python function falls off
the end). -/
def handle_get_attr (resources : List (String × Resource)) (args : Value) : Except WErr Value :=
  match args with
  | .list [.str rname, att] =>
    match resources.lookup rname with
    | none => .error (.invalidTemplateAttribute rname (attName att))
    | some r =>
      if allowedPhase r then
        match FnGetAtt r att with
        | .ok v => .ok v
        | .error _ => .error (.invalidTemplateAttribute rname (attName att))
      else .ok .null
  | _ => .error .typeError

/-- `HOTemplate.resolve_attributes s resources`: resolve
`{get_attr: [resource, attribute]}` constructs in `s` against `resources`. -/
def resolve_attributes (s : Value) (resources : List (String × Resource)) : Except WErr Value :=
  _resolve (match_get_attr resources) (handle_get_attr resources) s

/-- The HOT section names `SECTIONS` of hot.py: `VERSION`, `DESCRIPTION`,
`PARAMETERS`, `RESOURCES`, `OUTPUTS`, `UNDEFINED`. -/
def SECTIONS : List String :=
  ["heat_template_version", "description", "parameters",
   "resources", "outputs", "__undefined__"]

/-- The `_CFN_TO_HOT_SECTIONS` table of hot.py.  The legacy section-name
constants on the left come from the base template module
`heat.engine.template`, which is not under src/; modelled from the spec:
a fixed legacy-to-canonical mapping in which the legacy dialect's
version/description/parameters/resources/outputs sections map to their
canonical counterparts and the legacy mappings section has no canonical
target (it maps to `UNDEFINED`). -/
def _CFN_TO_HOT_SECTIONS : List (String × String) :=
  [("AWSTemplateFormatVersion", "heat_template_version"),
   ("Description", "description"),
   ("Parameters", "parameters"),
   ("Mappings", "__undefined__"),
   ("Resources", "resources"),
   ("Outputs", "outputs")]

/-- `HOTemplate._translate value mapping default`: table lookup with a
default for unmapped values. -/
def _translate [BEq α] (value : α) (mapping : List (α × β)) (dflt : β) : β :=
  match mapping.lookup value with
  | some v => v
  | none => dflt

/-- Python `str.capitalize`: first character uppercased, the rest
lowercased. -/
def pyCapitalize (s : String) : String :=
  match s.data with
  | [] => ""
  | c :: cs => String.mk (c.toUpper :: cs.map Char.toLower)

/-- Python `str.split("_")` on the character list of a non-empty string:
underscores separate tokens, adjacent underscores produce empty tokens. -/
def splitUnderscore : List Char → List (List Char)
  | [] => [[]]
  | c :: cs =>
    match splitUnderscore cs with
    | [] => if c = '_' then [[], []] else [[c]]
    | h :: t => if c = '_' then [] :: h :: t else (c :: h) :: t

/-- `HOTemplate._snake_to_camel`: split on underscores, capitalize each
token, concatenate (the empty name yields no tokens). -/
def _snake_to_camel (name : String) : String :=
  if name = "" then ""
  else String.join ((splitUnderscore name.data).map (fun t => pyCapitalize (String.mk t)))

/-- The `add_constraint` closure of `HOTemplate._translate_constraints`:
append the pair `(v, desc)` — embedded as the two-element list value
`[v, desc]`, with Python `None` descriptions as `null` — to the list stored
under `key`, creating the entry when absent. -/
def add_constraint (key : String) (v : Value) (desc : Value)
    (param : List (String × List Value)) : List (String × List Value) :=
  upsert key (((param.lookup key).getD []) ++ [Value.list [v, desc]]) param

/-- The `add_min_max` closure of `HOTemplate._translate_constraints`: read
the `min` and `max` bounds of `val` (an `AttributeError` when `val` is not a
mapping) and add a `Min<key>` and/or `Max<key>` constraint entry only for a
bound that is present and truthy. -/
def add_min_max (key : String) (val : Value) (desc : Value)
    (param : List (String × List Value)) : Except WErr (List (String × List Value)) :=
  match pyGet val "min" with
  | .error e => .error e
  | .ok minv =>
    match pyGet val "max" with
    | .error e => .error e
    | .ok maxv =>
      let param1 :=
        match minv with
        | some m => if truthy m then add_constraint ("Min" ++ key) m desc param else param
        | none => param
      let param2 :=
        match maxv with
        | some x => if truthy x then add_constraint ("Max" ++ key) x desc param1 else param1
        | none => param1
      .ok param2

/-- The inner key loop of `HOTemplate._translate_constraints`: walk one
constraint object's entries, re-spelling each key, skipping `Description`,
expanding `Range` into `MinValue`/`MaxValue` and `Length` into
`MinLength`/`MaxLength`, and storing every other key directly. -/
def constraintKeys (desc : Value) :
    List (String × Value) → List (String × List Value) →
    Except WErr (List (String × List Value))
  | [], param => .ok param
  | (k, val) :: rest, param =>
    let key := _snake_to_camel k
    if key = "Description" then constraintKeys desc rest param
    else if key = "Range" then
      match add_min_max "Value" val desc param with
      | .ok param2 => constraintKeys desc rest param2
      | .error e => .error e
    else if key = "Length" then
      match add_min_max key val desc param with
      | .ok param2 => constraintKeys desc rest param2
      | .error e => .error e
    else constraintKeys desc rest (add_constraint key val desc param)

/-- The outer loop of `HOTemplate._translate_constraints`: each constraint
must be a mapping (its `description`, possibly `None`, is the shared
description for every entry it produces). -/
def constraintsLoop :
    List Value → List (String × List Value) → Except WErr (List (String × List Value))
  | [], param => .ok param
  | c :: rest, param =>
    match c with
    | .map entries =>
      let desc := (entries.lookup "description").getD .null
      match constraintKeys desc entries param with
      | .ok param2 => constraintsLoop rest param2
      | .error e => .error e
    | _ => .error .attributeError

/-- `HOTemplate._translate_constraints`: normalize a sequence of constraint
objects into a mapping from canonical constraint key to the ordered list of
`(value, description)` pairs produced for it. -/
def _translate_constraints (constraints : Value) : Except WErr (List (String × Value)) :=
  match constraints with
  | .list cs =>
    match constraintsLoop cs [] with
    | .ok param => .ok (param.map (fun e => (e.1, Value.list e.2)))
    | .error e => .error e
  | _ => .error .typeError

/-- Python `dict.update`: fold the new bindings into the mapping in order. -/
def updateAll (entries : List (String × Value)) (param : List (String × Value)) :
    List (String × Value) :=
  entries.foldl (fun p e => upsert e.1 e.2 p) param

/-- The per-attribute loop of `HOTemplate._translate_parameters`: re-spell
each key; re-spell the value of `Type` as well (a non-string truthy value has
no `.split` and faults; a falsy one yields the empty name); expand
`Constraints` in place via constraint normalization; rename `Hidden` to
`NoEcho`. -/
def paramAttrLoop :
    List (String × Value) → List (String × Value) → Except WErr (List (String × Value))
  | [], param => .ok param
  | (k, val) :: rest, param =>
    let key := _snake_to_camel k
    if key = "Type" then
      match val with
      | .str s => paramAttrLoop rest (upsert key (.str (_snake_to_camel s)) param)
      | v =>
        if truthy v then .error .attributeError
        else paramAttrLoop rest (upsert key (.str "") param)
    else if key = "Constraints" then
      match _translate_constraints val with
      | .ok entries => paramAttrLoop rest (updateAll entries param)
      | .error e => .error e
    else
      let key2 := if key = "Hidden" then "NoEcho" else key
      paramAttrLoop rest (upsert key2 val param)

/-- The per-parameter loop of `HOTemplate._translate_parameters`: translate
each parameter's attribute mapping, omitting parameters that normalize to
zero attributes. -/
def paramsLoop :
    List (String × Value) → List (String × Value) → Except WErr (List (String × Value))
  | [], out => .ok out
  | (name, attrs) :: rest, out =>
    match attrs with
    | .map entries =>
      match paramAttrLoop entries [] with
      | .ok param =>
        paramsLoop rest (if param.length > 0 then upsert name (.map param) out else out)
      | .error e => .error e
    | _ => .error .attributeError

/-- `HOTemplate._translate_parameters`: the parameters section translated
into the canonical (CFN) format. -/
def _translate_parameters (parameters : Value) : Except WErr Value :=
  match parameters with
  | .map ps =>
    match paramsLoop ps [] with
    | .ok out => .ok (.map out)
    | .error e => .error e
  | _ => .error .attributeError

/-- The per-entry key renaming shared by `_translate_resources` and
`_translate_outputs`: rename each attribute key through the fixed table,
keys outside the table passing through unchanged. -/
def renameKeys (table : List (String × String)) :
    List (String × Value) → List (String × Value) → List (String × Value)
  | [], out => out
  | (k, v) :: rest, out => renameKeys table rest (upsert (_translate k table k) v out)

/-- The shared outer loop of `_translate_resources`/`_translate_outputs`:
each named entry's attribute mapping has its keys renamed through the
table. -/
def sectionRename (table : List (String × String)) :
    List (String × Value) → List (String × Value) → Except WErr (List (String × Value))
  | [], out => .ok out
  | (name, attrs) :: rest, out =>
    match attrs with
    | .map entries => sectionRename table rest (upsert name (.map (renameKeys table entries [])) out)
    | _ => .error .attributeError

/-- `HOTemplate._translate_resources`: rename `type`/`properties`; other
keys pass through. -/
def _translate_resources (resources : Value) : Except WErr Value :=
  match resources with
  | .map rs =>
    match sectionRename [("type", "Type"), ("properties", "Properties")] rs [] with
    | .ok out => .ok (.map out)
    | .error e => .error e
  | _ => .error .attributeError

/-- `HOTemplate._translate_outputs`: rename `description`/`value`; other
keys pass through. -/
def _translate_outputs (outputs : Value) : Except WErr Value :=
  match outputs with
  | .map os =>
    match sectionRename [("description", "Description"), ("value", "Value")] os [] with
    | .ok out => .ok (.map out)
    | .error e => .error e
  | _ => .error .attributeError

/-- `HOTemplate.__getitem__ section` on a template whose top-level mapping is
`t`: translate a legacy section name, reject unrecognized sections, return
the raw stored version value (a key fault when absent), an empty mapping for
the `UNDEFINED` section, and otherwise the section's value — defaulted when
absent and, for parameters/resources/outputs, translated into the canonical
format. -/
def get_section (t : List (String × Value)) (sectionName : String) : Except WErr Value :=
  let s := _translate sectionName _CFN_TO_HOT_SECTIONS sectionName
  if !(SECTIONS.contains s) then .error (.invalidSection s)
  else if s = "heat_template_version" then
    match t.lookup s with
    | some v => .ok v
    | none => .error .keyError
  else if s = "__undefined__" then .ok (.map [])
  else
    let dflt := if s = "description" then Value.str "No description" else .map []
    let the_section := (t.lookup s).getD dflt
    if s = "parameters" then _translate_parameters the_section
    else if s = "resources" then _translate_resources the_section
    else if s = "outputs" then _translate_outputs the_section
    else .ok the_section

/-- The watch states of `WatchRule.WATCH_STATES`: `ALARM`, `NORMAL` (OK),
`NODATA`, `SUSPENDED` (four distinct constants taken from the RPC API
module). -/
inductive WState where
  | ALARM
  | NORMAL
  | NODATA
  | SUSPENDED
deriving DecidableEq, Repr

/-- A CloudWatch-style alarm rule, the `rule` mapping of a watch rule.  The
optional action-list fields model presence or absence of the corresponding
key in the mapping; `Threshold` and `Period` are stored as numbers (the code
coerces them with `float`/`int` at the point of use). -/
structure Rule where
  MetricName : String
  Statistic : String
  ComparisonOperator : String
  Threshold : Rat
  Period : Int
  AlarmActions : Option (List String) := none
  OKActions : Option (List String) := none
  InsufficientDataActions : Option (List String) := none

/-- A metric payload inside a sample: a mapping such as `{Value: v}`.  Only
numeric fields are ever read by the code under verification, so entries are
embedded as rationals. -/
def MetricEntry := List (String × Rat)

/-- A sample payload: a mapping from metric name to its payload. -/
def SampleData := List (String × MetricEntry)

/-- A buffered `WatchData` sample: creation timestamp (seconds) and
payload. -/
structure WatchData where
  created_at : Int
  data : SampleData

/-- The in-memory `WatchRule` object.  Timestamps are integers (seconds), so
`timeperiod` (a `timedelta` of `int(rule.Period)` seconds) is an integer
added to timestamps. -/
structure WatchRule where
  name : String
  state : WState
  rule : Rule
  stack_id : Option String
  timeperiod : Int
  id : Option Nat
  watch_data : List WatchData
  last_evaluated : Int
  now : Int

/-- `WatchRule.__init__`: construct a rule; `now` is sampled at construction
time (`tconstruct`) and `timeperiod` is derived once from `rule.Period`. -/
def construct (tconstruct : Int) (watch_name : String) (rule : Rule)
    (stack_id : Option String) (state : WState) (wid : Option Nat)
    (watch_data : List WatchData) (last_evaluated : Int) : WatchRule :=
  { name := watch_name, state := state, rule := rule, stack_id := stack_id,
    timeperiod := rule.Period, id := wid, watch_data := watch_data,
    last_evaluated := last_evaluated, now := tconstruct }

/-- `WatchRule.do_data_cmp`: compare `data` against `threshold` under the
rule's comparison operator; an unrecognized operator yields `false`. -/
def do_data_cmp (wr : WatchRule) (data threshold : Rat) : Bool :=
  if wr.rule.ComparisonOperator = "GreaterThanThreshold" then data > threshold
  else if wr.rule.ComparisonOperator = "GreaterThanOrEqualToThreshold" then data ≥ threshold
  else if wr.rule.ComparisonOperator = "LessThanThreshold" then data < threshold
  else if wr.rule.ComparisonOperator = "LessThanOrEqualToThreshold" then data ≤ threshold
  else false

/-- The value of the named metric inside one sample:
`d.data[metric]["Value"]`, absent when either lookup fails. -/
def getVal (d : WatchData) (metric : String) : Option Rat :=
  match d.data.lookup metric with
  | some entry => entry.lookup "Value"
  | none => none

/-- The loop of `WatchRule.do_Maximum`: samples older than the window start
(`cutoff = now - timeperiod`) are skipped; a failed metric lookup is a key
fault; otherwise the running maximum and the have-data flag are updated. -/
def max_loop (metric : String) (cutoff : Int) :
    List WatchData → Rat → Bool → Except WErr (Rat × Bool)
  | [], data, hasData => .ok (data, hasData)
  | d :: ds, data, hasData =>
    if d.created_at < cutoff then max_loop metric cutoff ds data hasData
    else
      match getVal d metric with
      | none => .error .keyError
      | some v =>
        let data1 := if !hasData then v else data
        let data2 := if v > data1 then v else data1
        max_loop metric cutoff ds data2 true

/-- The loop of `WatchRule.do_Minimum`: like `max_loop` but the minimum is
only updated (`elif`) when data was already seen. -/
def min_loop (metric : String) (cutoff : Int) :
    List WatchData → Rat → Bool → Except WErr (Rat × Bool)
  | [], data, hasData => .ok (data, hasData)
  | d :: ds, data, hasData =>
    if d.created_at < cutoff then min_loop metric cutoff ds data hasData
    else
      match getVal d metric with
      | none => .error .keyError
      | some v =>
        if !hasData then min_loop metric cutoff ds v true
        else if v < data then min_loop metric cutoff ds v true
        else min_loop metric cutoff ds data true

/-- The loop of `WatchRule.do_SampleCount`: count the in-window samples. -/
def count_loop (cutoff : Int) : List WatchData → Nat → Nat
  | [], acc => acc
  | d :: ds, acc =>
    if d.created_at < cutoff then count_loop cutoff ds acc
    else count_loop cutoff ds (acc + 1)

/-- The loop of `WatchRule.do_Average`: accumulate the in-window sum and
sample count. -/
def avg_loop (metric : String) (cutoff : Int) :
    List WatchData → Rat → Nat → Except WErr (Rat × Nat)
  | [], data, samples => .ok (data, samples)
  | d :: ds, data, samples =>
    if d.created_at < cutoff then avg_loop metric cutoff ds data samples
    else
      match getVal d metric with
      | none => .error .keyError
      | some v => avg_loop metric cutoff ds (data + v) (samples + 1)

/-- The loop of `WatchRule.do_Sum`: accumulate the in-window sum. -/
def sum_loop (metric : String) (cutoff : Int) :
    List WatchData → Rat → Except WErr Rat
  | [], data => .ok data
  | d :: ds, data =>
    if d.created_at < cutoff then sum_loop metric cutoff ds data
    else
      match getVal d metric with
      | none => .error .keyError
      | some v => sum_loop metric cutoff ds (data + v)

/-- `WatchRule.do_Maximum`: `NODATA` with no in-window sample, else the
threshold comparison of the running maximum. -/
def do_Maximum (wr : WatchRule) : Except WErr WState :=
  match max_loop wr.rule.MetricName (wr.now - wr.timeperiod) wr.watch_data 0 false with
  | .error e => .error e
  | .ok (data, hasData) =>
    if !hasData then .ok .NODATA
    else .ok (if do_data_cmp wr data wr.rule.Threshold then .ALARM else .NORMAL)

/-- `WatchRule.do_Minimum`: `NODATA` with no in-window sample, else the
threshold comparison of the running minimum. -/
def do_Minimum (wr : WatchRule) : Except WErr WState :=
  match min_loop wr.rule.MetricName (wr.now - wr.timeperiod) wr.watch_data 0 false with
  | .error e => .error e
  | .ok (data, hasData) =>
    if !hasData then .ok .NODATA
    else .ok (if do_data_cmp wr data wr.rule.Threshold then .ALARM else .NORMAL)

/-- `WatchRule.do_SampleCount`: the threshold comparison of the in-window
sample count (no `NODATA` path). -/
def do_SampleCount (wr : WatchRule) : Except WErr WState :=
  let data := count_loop (wr.now - wr.timeperiod) wr.watch_data 0
  .ok (if do_data_cmp wr (data : Rat) wr.rule.Threshold then .ALARM else .NORMAL)

/-- `WatchRule.do_Average`: `NODATA` when the in-window sample count is
zero, else the threshold comparison of sum divided by count. -/
def do_Average (wr : WatchRule) : Except WErr WState :=
  match avg_loop wr.rule.MetricName (wr.now - wr.timeperiod) wr.watch_data 0 0 with
  | .error e => .error e
  | .ok (data, samples) =>
    if samples = 0 then .ok .NODATA
    else .ok (if do_data_cmp wr (data / (samples : Rat)) wr.rule.Threshold then .ALARM else .NORMAL)

/-- `WatchRule.do_Sum`: the threshold comparison of the in-window sum (an
empty window compares a sum of 0; no `NODATA` path). -/
def do_Sum (wr : WatchRule) : Except WErr WState :=
  match sum_loop wr.rule.MetricName (wr.now - wr.timeperiod) wr.watch_data 0 with
  | .error e => .error e
  | .ok data => .ok (if do_data_cmp wr data wr.rule.Threshold then .ALARM else .NORMAL)

/-- `WatchRule.get_alarm_state`: dynamic dispatch on
`getattr(self, "do_" + rule.Statistic)`.  A statistic outside the five
statistic methods makes the dispatch fail (Python raises `AttributeError`,
or `TypeError` for the pathological name `data_cmp`); that dispatch failure
is the single error the spec calls `UnknownStatistic`, modelled here as one
error value naming the statistic. -/
def get_alarm_state (wr : WatchRule) : Except WErr WState :=
  if wr.rule.Statistic = "Maximum" then do_Maximum wr
  else if wr.rule.Statistic = "Minimum" then do_Minimum wr
  else if wr.rule.Statistic = "SampleCount" then do_SampleCount wr
  else if wr.rule.Statistic = "Average" then do_Average wr
  else if wr.rule.Statistic = "Sum" then do_Sum wr
  else .error (.unknownStatistic wr.rule.Statistic)

/-- A callable action returned by the evaluator: the `signal` operation of
the named stack resource. -/
inductive WAction where
  | signal (resourceName : String)
deriving DecidableEq, Repr

/-- Modelled from the spec: the stack record produced by the stack loader
(`db_api.stack_get` plus `parser.Stack.load`, outside src/), exposing its
current action and status; resource signals are addressed by name. -/
structure Stack where
  action : String
  status : String

/-- Modelled from the spec: the external collaborators an evaluation can
touch — the owning stack, `none` when it has been deleted concurrently (the
spec requires treating that as no actions dispatchable). -/
structure WEnv where
  stack : Option Stack

/-- `WatchRule.ACTION_MAP`: the rule key holding the actions for each new
state; `SUSPENDED` has no entry (a lookup for it is a key fault). -/
def ACTION_MAP : WState → Option String
  | .ALARM => some "AlarmActions"
  | .NORMAL => some "OKActions"
  | .NODATA => some "InsufficientDataActions"
  | .SUSPENDED => none

/-- Presence lookup of an action key in the rule mapping
(`ACTION_MAP[new_state] in self.rule` and `self.rule[...]`). -/
def ruleActionsField (r : Rule) (key : String) : Option (List String) :=
  if key = "AlarmActions" then r.AlarmActions
  else if key = "OKActions" then r.OKActions
  else if key = "InsufficientDataActions" then r.InsufficientDataActions
  else none

/-- The outcome of a mutating watch-rule operation: the rule object after
the call, the returned value or the exception raised, and how many times the
rule was persisted (`store`).  The id a first `store` would assign is not
modelled; no claim under study reads it. -/
structure OpResult (α : Type) where
  wr : WatchRule
  res : Except WErr α
  stores : Nat

/-- `WatchRule.rule_actions new_state`: a key fault when `ACTION_MAP` has no
entry for the state; no actions when the rule configures none under that
key; otherwise load the owning stack and, only when its action is not
`DELETE` and its status is `COMPLETE`, produce the configured resource
signals in order. -/
def rule_actions (env : WEnv) (wr : WatchRule) (new_state : WState) :
    Except WErr (List WAction) :=
  match ACTION_MAP new_state with
  | none => .error .keyError
  | some key =>
    match ruleActionsField wr.rule key with
    | none => .ok []
    | some names =>
      match env.stack with
      | none => .ok []
      | some stack =>
        if stack.action ≠ "DELETE" ∧ stack.status = "COMPLETE" then
          .ok (names.map WAction.signal)
        else .ok []

/-- `WatchRule.run_rule`: compute the new state, compute the actions for it
(an exception there leaves the rule untouched), then commit the new state
and `last_evaluated := now` and persist once. -/
def run_rule (env : WEnv) (wr : WatchRule) : OpResult (List WAction) :=
  match get_alarm_state wr with
  | .error e => ⟨wr, .error e, 0⟩
  | .ok new_state =>
    match rule_actions env wr new_state with
    | .error e => ⟨wr, .error e, 0⟩
    | .ok actions =>
      ⟨{ wr with state := new_state, last_evaluated := wr.now }, .ok actions, 1⟩

/-- `WatchRule.evaluate`: an empty action list with no further work while
`SUSPENDED`; otherwise resample `now` (`tnow`) and return an empty action
list without recomputation when less than `timeperiod` has elapsed since
`last_evaluated`; otherwise run the full rule. -/
def evaluate (env : WEnv) (wr : WatchRule) (tnow : Int) : OpResult (List WAction) :=
  if wr.state = .SUSPENDED then ⟨wr, .ok [], 0⟩
  else
    let wr2 := { wr with now := tnow }
    if wr2.now < wr2.last_evaluated + wr2.timeperiod then ⟨wr2, .ok [], 0⟩
    else run_rule env wr2

/-- The record a persisted sample would carry
(`{data: data, watch_rule_id: self.id}`). -/
structure WatchDataRec where
  data : SampleData
  watch_rule_id : Option Nat

/-- `WatchRule.create_watch_data`: ignore the sample (persist nothing) while
`SUSPENDED` or when the payload does not contain the rule's metric name;
otherwise persist exactly one new sample record. -/
def create_watch_data (wr : WatchRule) (data : SampleData) : Option WatchDataRec :=
  if wr.state = .SUSPENDED then none
  else if (data.lookup wr.rule.MetricName).isNone then none
  else some ⟨data, wr.id⟩

/-- `WatchRule.set_watch_state state`: compute (without committing or
persisting anything) the actions for a target state; a target equal to the
current state short-circuits to no actions. -/
def set_watch_state (env : WEnv) (wr : WatchRule) (state : WState) :
    OpResult (List WAction) :=
  if state ≠ wr.state then
    match rule_actions env wr state with
    | .ok actions => ⟨wr, .ok actions, 0⟩
    | .error e => ⟨wr, .error e, 0⟩
  else ⟨wr, .ok [], 0⟩

section ClaimC1

/-- C1 counterexample: `resolve_params({"get_param": "y"}, {"x": 5})` does
not raise `MissingParameter` — the matcher requires the named parameter to be
present, so the unresolved reference is returned unchanged, contradicting
the claim that absence is always reported as `MissingParameter`. -/
theorem resolve_param_refs_absent_counterexample :
    resolve_param_refs (.map [("get_param", .str "y")]) [("x", .int 5)]
        = .ok (.map [("get_param", .str "y")]) ∧
    resolve_param_refs (.map [("get_param", .str "y")]) [("x", .int 5)]
        ≠ .error (.userParameterMissing "y") := by
  constructor
  · rfl
  · intro h
    rw [show resolve_param_refs (.map [("get_param", .str "y")]) [("x", .int 5)]
          = .ok (.map [("get_param", .str "y")]) from rfl] at h
    exact Except.noConfusion h

/-- C1 (amended): a `{get_param: p}` node whose parameter `p` is absent from
the supplied parameter mapping is left unresolved — the matcher does not
match it, the node is returned unchanged and no `MissingParameter`
(`UserParameterMissing`) error is raised; a present parameter resolves to
its value. -/
theorem resolve_param_refs_absent_unchanged
    (parameters : List (String × Value)) (p : String) :
    (parameters.lookup p = none →
      resolve_param_refs (.map [("get_param", .str p)]) parameters
        = .ok (.map [("get_param", .str p)])) ∧
    (∀ v, parameters.lookup p = some v →
      resolve_param_refs (.map [("get_param", .str p)]) parameters = .ok v) := by
  constructor
  · intro h
    simp [resolve_param_refs, _resolve, match_param_ref, h]
  · intro v h
    simp [resolve_param_refs, _resolve, match_param_ref, handle_param_ref, h]

/-- Witness for the amended C1 theorem at concrete inputs. -/
theorem resolve_param_refs_absent_unchanged_witness :
    resolve_param_refs (.map [("get_param", .str "y")]) [("x", .int 5)]
        = .ok (.map [("get_param", .str "y")]) ∧
    resolve_param_refs (.map [("get_param", .str "x")]) [("x", .int 5)]
        = .ok (.int 5) :=
  ⟨(resolve_param_refs_absent_unchanged [("x", .int 5)] "y").1 rfl,
   (resolve_param_refs_absent_unchanged [("x", .int 5)] "x").2 (.int 5) rfl⟩

end ClaimC1

section ClaimC2

/-- C2 counterexample: a `{get_attr: ["r1", "PublicIp"]}` node whose
resource `r1` is absent from the supplied (empty) resource collection does
not raise `InvalidTemplateAttribute` — the matcher requires the resource to
be present, so the node is returned unchanged. -/
theorem resolve_attributes_absent_counterexample :
    resolve_attributes (.map [("get_attr", .list [.str "r1", .str "PublicIp"])]) []
        = .ok (.map [("get_attr", .list [.str "r1", .str "PublicIp"])]) ∧
    resolve_attributes (.map [("get_attr", .list [.str "r1", .str "PublicIp"])]) []
        ≠ .error (.invalidTemplateAttribute "r1" "PublicIp") := by
  constructor
  · rfl
  · intro h
    rw [show resolve_attributes (.map [("get_attr", .list [.str "r1", .str "PublicIp"])]) []
          = .ok (.map [("get_attr", .list [.str "r1", .str "PublicIp"])]) from rfl] at h
    exact Except.noConfusion h

/-- C2 (amended): a `{get_attr: [resource, attribute]}` node naming a
resource absent from the supplied collection is left unresolved — the
matcher does not match it and the node is returned unchanged;
`InvalidTemplateAttribute`, naming both resource and attribute, is raised
when the named resource is present in an allowed lifecycle phase but the
attribute lookup fails. -/
theorem resolve_attributes_absent_unchanged
    (resources : List (String × Resource)) (rname a : String) :
    (resources.lookup rname = none →
      resolve_attributes (.map [("get_attr", .list [.str rname, .str a])]) resources
        = .ok (.map [("get_attr", .list [.str rname, .str a])])) ∧
    (∀ r, resources.lookup rname = some r → allowedPhase r = true →
      r.attrs.lookup a = none →
      resolve_attributes (.map [("get_attr", .list [.str rname, .str a])]) resources
        = .error (.invalidTemplateAttribute rname a)) := by
  constructor
  · intro h
    simp [resolve_attributes, _resolve, resolveItems, match_get_attr, h]
  · intro r h hphase hatt
    simp [resolve_attributes, _resolve, match_get_attr, handle_get_attr, h,
          hphase, FnGetAtt, hatt, attName]

/-- Witness for the amended C2 theorem at concrete inputs. -/
theorem resolve_attributes_absent_unchanged_witness :
    resolve_attributes (.map [("get_attr", .list [.str "r1", .str "PublicIp"])]) []
        = .ok (.map [("get_attr", .list [.str "r1", .str "PublicIp"])]) ∧
    resolve_attributes (.map [("get_attr", .list [.str "r1", .str "PublicIp"])])
        [("r1", ⟨"CREATE", "COMPLETE", []⟩)]
        = .error (.invalidTemplateAttribute "r1" "PublicIp") :=
  ⟨(resolve_attributes_absent_unchanged [] "r1" "PublicIp").1 rfl,
   (resolve_attributes_absent_unchanged [("r1", ⟨"CREATE", "COMPLETE", []⟩)]
      "r1" "PublicIp").2 ⟨"CREATE", "COMPLETE", []⟩ rfl rfl rfl⟩

end ClaimC2

section ClaimC3

/-- C3: `get_alarm_state` dispatches a statistic named `Maximum`, `Minimum`,
`SampleCount`, `Average` or `Sum` to the corresponding statistic function,
and fails with the dispatch error naming the statistic (the failure the spec
calls `UnknownStatistic`) for every other name; a non-rate-limited
`evaluate` surfaces that same error. -/
theorem get_alarm_state_dispatch (wr : WatchRule) (env : WEnv) (tnow : Int) :
    (wr.rule.Statistic ∉ (["Maximum", "Minimum", "SampleCount", "Average", "Sum"] : List String) →
      get_alarm_state wr = .error (.unknownStatistic wr.rule.Statistic) ∧
      (wr.state ≠ .SUSPENDED → ¬ tnow < wr.last_evaluated + wr.timeperiod →
        (evaluate env wr tnow).res = .error (.unknownStatistic wr.rule.Statistic))) ∧
    (wr.rule.Statistic = "Maximum" → get_alarm_state wr = do_Maximum wr) ∧
    (wr.rule.Statistic = "Minimum" → get_alarm_state wr = do_Minimum wr) ∧
    (wr.rule.Statistic = "SampleCount" → get_alarm_state wr = do_SampleCount wr) ∧
    (wr.rule.Statistic = "Average" → get_alarm_state wr = do_Average wr) ∧
    (wr.rule.Statistic = "Sum" → get_alarm_state wr = do_Sum wr) := by
  refine ⟨?_, ?_, ?_, ?_, ?_, ?_⟩
  · intro h
    simp only [List.mem_cons, List.not_mem_nil, or_false, not_or] at h
    obtain ⟨h1, h2, h3, h4, h5⟩ := h
    constructor
    · simp [get_alarm_state, h1, h2, h3, h4, h5]
    · intro hs hrate
      simp [evaluate, hs, hrate, run_rule, get_alarm_state, h1, h2, h3, h4, h5]
  · intro h; simp [get_alarm_state, h]
  · intro h; simp [get_alarm_state, h]
  · intro h; simp [get_alarm_state, h]
  · intro h; simp [get_alarm_state, h]
  · intro h; simp [get_alarm_state, h]

/-- Witness for the C3 theorem: a rule whose statistic is `Bogus` fails
dispatch, also through a non-rate-limited `evaluate`, and a rule whose
statistic is `Maximum` dispatches to `do_Maximum`. -/
theorem get_alarm_state_dispatch_witness :
    get_alarm_state ⟨"w", .NORMAL, ⟨"m", "Bogus", "GreaterThanThreshold", 0, 60, none, none, none⟩,
        none, 60, none, [], 0, 100⟩
      = .error (.unknownStatistic "Bogus") ∧
    (evaluate ⟨none⟩ ⟨"w", .NORMAL, ⟨"m", "Bogus", "GreaterThanThreshold", 0, 60, none, none, none⟩,
        none, 60, none, [], 0, 100⟩ 100).res
      = .error (.unknownStatistic "Bogus") ∧
    get_alarm_state ⟨"w", .NORMAL, ⟨"m", "Maximum", "GreaterThanThreshold", 0, 60, none, none, none⟩,
        none, 60, none, [], 0, 100⟩
      = do_Maximum ⟨"w", .NORMAL, ⟨"m", "Maximum", "GreaterThanThreshold", 0, 60, none, none, none⟩,
        none, 60, none, [], 0, 100⟩ :=
  ⟨((get_alarm_state_dispatch ⟨"w", .NORMAL,
        ⟨"m", "Bogus", "GreaterThanThreshold", 0, 60, none, none, none⟩,
        none, 60, none, [], 0, 100⟩ ⟨none⟩ 100).1 (by decide)).1,
   ((get_alarm_state_dispatch ⟨"w", .NORMAL,
        ⟨"m", "Bogus", "GreaterThanThreshold", 0, 60, none, none, none⟩,
        none, 60, none, [], 0, 100⟩ ⟨none⟩ 100).1 (by decide)).2
      (by decide) (by decide),
   (get_alarm_state_dispatch ⟨"w", .NORMAL,
        ⟨"m", "Maximum", "GreaterThanThreshold", 0, 60, none, none, none⟩,
        none, 60, none, [], 0, 100⟩ ⟨none⟩ 100).2.1 rfl⟩

end ClaimC3

section ClaimC4

/-- C4 counterexample: section lookup is not total — on a template with no
version key, looking the version section up raises a missing-key fault
instead of returning a value. -/
theorem get_section_version_counterexample :
    get_section [] "heat_template_version" = .error .keyError := rfl

/-- C4 (amended): for every recognized section other than the version
section, lookup never raises a missing-key fault — an absent description
returns the literal string "No description", absent
parameters/resources/outputs return an empty mapping, and the legacy
mappings-equivalent section returns an empty mapping regardless of the
template's content; the version section instead returns the raw stored value
when present and raises a missing-key fault when absent. -/
theorem get_section_defaults (t : List (String × Value)) :
    (t.lookup "description" = none →
      get_section t "description" = .ok (.str "No description")) ∧
    (t.lookup "parameters" = none → get_section t "parameters" = .ok (.map [])) ∧
    (t.lookup "resources" = none → get_section t "resources" = .ok (.map [])) ∧
    (t.lookup "outputs" = none → get_section t "outputs" = .ok (.map [])) ∧
    get_section t "__undefined__" = .ok (.map []) ∧
    get_section t "Mappings" = .ok (.map []) ∧
    (t.lookup "heat_template_version" = none →
      get_section t "heat_template_version" = .error .keyError) ∧
    (∀ v, t.lookup "heat_template_version" = some v →
      get_section t "heat_template_version" = .ok v) := by
  refine ⟨?_, ?_, ?_, ?_, rfl, rfl, ?_, ?_⟩
  · intro h
    show Except.ok ((t.lookup "description").getD (Value.str "No description")) = _
    rw [h]
    rfl
  · intro h
    show _translate_parameters ((t.lookup "parameters").getD (.map [])) = _
    rw [h]
    rfl
  · intro h
    show _translate_resources ((t.lookup "resources").getD (.map [])) = _
    rw [h]
    rfl
  · intro h
    show _translate_outputs ((t.lookup "outputs").getD (.map [])) = _
    rw [h]
    rfl
  · intro h
    show (match t.lookup "heat_template_version" with
          | some v => Except.ok v
          | none => Except.error WErr.keyError) = _
    rw [h]
  · intro v h
    show (match t.lookup "heat_template_version" with
          | some v => Except.ok v
          | none => Except.error WErr.keyError) = _
    rw [h]

/-- Witness for the C4 theorem on the empty template and on a template that
stores a version. -/
theorem get_section_defaults_witness :
    get_section [] "description" = .ok (.str "No description") ∧
    get_section [] "parameters" = .ok (.map []) ∧
    get_section [] "resources" = .ok (.map []) ∧
    get_section [] "outputs" = .ok (.map []) ∧
    get_section [] "heat_template_version" = .error .keyError ∧
    get_section [("heat_template_version", .str "2013-05-23")] "heat_template_version"
      = .ok (.str "2013-05-23") :=
  ⟨(get_section_defaults []).1 rfl,
   (get_section_defaults []).2.1 rfl,
   (get_section_defaults []).2.2.1 rfl,
   (get_section_defaults []).2.2.2.1 rfl,
   (get_section_defaults []).2.2.2.2.2.2.1 rfl,
   (get_section_defaults [("heat_template_version", .str "2013-05-23")]).2.2.2.2.2.2.2
     (.str "2013-05-23") rfl⟩

end ClaimC4

section WindowLemmas

/-- A list of samples all strictly older than the window start leaves the
sum loop at its accumulator. -/
theorem sum_loop_all_stale (metric : String) (cutoff : Int) (wd : List WatchData) (acc : Rat)
    (h : ∀ d ∈ wd, d.created_at < cutoff) :
    sum_loop metric cutoff wd acc = .ok acc := by
  induction wd with
  | nil => rfl
  | cons d ds ih =>
    have hd := h d (List.mem_cons_self d ds)
    simp only [sum_loop, if_pos hd]
    exact ih (fun x hx => h x (List.mem_cons_of_mem d hx))

/-- A list of samples all strictly older than the window start leaves the
maximum loop at its accumulator. -/
theorem max_loop_all_stale (metric : String) (cutoff : Int) (wd : List WatchData)
    (acc : Rat) (hasData : Bool) (h : ∀ d ∈ wd, d.created_at < cutoff) :
    max_loop metric cutoff wd acc hasData = .ok (acc, hasData) := by
  induction wd with
  | nil => rfl
  | cons d ds ih =>
    have hd := h d (List.mem_cons_self d ds)
    simp only [max_loop, if_pos hd]
    exact ih (fun x hx => h x (List.mem_cons_of_mem d hx))

/-- A list of samples all strictly older than the window start leaves the
minimum loop at its accumulator. -/
theorem min_loop_all_stale (metric : String) (cutoff : Int) (wd : List WatchData)
    (acc : Rat) (hasData : Bool) (h : ∀ d ∈ wd, d.created_at < cutoff) :
    min_loop metric cutoff wd acc hasData = .ok (acc, hasData) := by
  induction wd with
  | nil => rfl
  | cons d ds ih =>
    have hd := h d (List.mem_cons_self d ds)
    simp only [min_loop, if_pos hd]
    exact ih (fun x hx => h x (List.mem_cons_of_mem d hx))

/-- A list of samples all strictly older than the window start leaves the
average loop at its accumulators. -/
theorem avg_loop_all_stale (metric : String) (cutoff : Int) (wd : List WatchData)
    (acc : Rat) (samples : Nat) (h : ∀ d ∈ wd, d.created_at < cutoff) :
    avg_loop metric cutoff wd acc samples = .ok (acc, samples) := by
  induction wd with
  | nil => rfl
  | cons d ds ih =>
    have hd := h d (List.mem_cons_self d ds)
    simp only [avg_loop, if_pos hd]
    exact ih (fun x hx => h x (List.mem_cons_of_mem d hx))

end WindowLemmas

section ClaimC5

/-- C5: with zero in-window samples, `do_Sum` never yields `NODATA` — the
sum is 0 and is compared against the threshold (with threshold `-1` and
`GreaterThanThreshold` the state becomes `ALARM`), while `do_Maximum`,
`do_Minimum` and `do_Average` yield `NODATA` with the comparison skipped. -/
theorem empty_window_statistics (wr : WatchRule)
    (h : ∀ d ∈ wr.watch_data, d.created_at < wr.now - wr.timeperiod) :
    do_Sum wr = .ok (if do_data_cmp wr 0 wr.rule.Threshold then .ALARM else .NORMAL) ∧
    (wr.rule.Threshold = -1 → wr.rule.ComparisonOperator = "GreaterThanThreshold" →
      do_Sum wr = .ok .ALARM) ∧
    do_Maximum wr = .ok .NODATA ∧
    do_Minimum wr = .ok .NODATA ∧
    do_Average wr = .ok .NODATA := by
  have hsum : do_Sum wr
      = .ok (if do_data_cmp wr 0 wr.rule.Threshold then .ALARM else .NORMAL) := by
    simp only [do_Sum, sum_loop_all_stale _ _ _ _ h]
  refine ⟨hsum, ?_, ?_, ?_, ?_⟩
  · intro ht hop
    rw [hsum]
    simp [do_data_cmp, hop, ht]
  · simp only [do_Maximum, max_loop_all_stale _ _ _ _ _ h, Bool.not_false, if_pos]
  · simp only [do_Minimum, min_loop_all_stale _ _ _ _ _ h, Bool.not_false, if_pos]
  · simp only [do_Average, avg_loop_all_stale _ _ _ _ _ h, if_pos]

/-- Witness for the C5 theorem: a rule with threshold `-1`, operator
`GreaterThanThreshold` and a single sample that fell out of the window
alarms under `Sum` and yields `NODATA` under the other three value
statistics. -/
theorem empty_window_statistics_witness :
    do_Sum ⟨"w", .NORMAL, ⟨"m", "Sum", "GreaterThanThreshold", -1, 60, none, none, none⟩,
        none, 60, none, [⟨0, [("m", [("Value", 5)])]⟩], 0, 100⟩ = .ok .ALARM ∧
    do_Maximum ⟨"w", .NORMAL, ⟨"m", "Sum", "GreaterThanThreshold", -1, 60, none, none, none⟩,
        none, 60, none, [⟨0, [("m", [("Value", 5)])]⟩], 0, 100⟩ = .ok .NODATA ∧
    do_Minimum ⟨"w", .NORMAL, ⟨"m", "Sum", "GreaterThanThreshold", -1, 60, none, none, none⟩,
        none, 60, none, [⟨0, [("m", [("Value", 5)])]⟩], 0, 100⟩ = .ok .NODATA ∧
    do_Average ⟨"w", .NORMAL, ⟨"m", "Sum", "GreaterThanThreshold", -1, 60, none, none, none⟩,
        none, 60, none, [⟨0, [("m", [("Value", 5)])]⟩], 0, 100⟩ = .ok .NODATA :=
  ⟨(empty_window_statistics ⟨"w", .NORMAL,
        ⟨"m", "Sum", "GreaterThanThreshold", -1, 60, none, none, none⟩,
        none, 60, none, [⟨0, [("m", [("Value", 5)])]⟩], 0, 100⟩
      (by intro d hd; simp only [List.mem_singleton] at hd; subst hd; decide)).2.1 rfl rfl,
   (empty_window_statistics ⟨"w", .NORMAL,
        ⟨"m", "Sum", "GreaterThanThreshold", -1, 60, none, none, none⟩,
        none, 60, none, [⟨0, [("m", [("Value", 5)])]⟩], 0, 100⟩
      (by intro d hd; simp only [List.mem_singleton] at hd; subst hd; decide)).2.2.1,
   (empty_window_statistics ⟨"w", .NORMAL,
        ⟨"m", "Sum", "GreaterThanThreshold", -1, 60, none, none, none⟩,
        none, 60, none, [⟨0, [("m", [("Value", 5)])]⟩], 0, 100⟩
      (by intro d hd; simp only [List.mem_singleton] at hd; subst hd; decide)).2.2.2.1,
   (empty_window_statistics ⟨"w", .NORMAL,
        ⟨"m", "Sum", "GreaterThanThreshold", -1, 60, none, none, none⟩,
        none, 60, none, [⟨0, [("m", [("Value", 5)])]⟩], 0, 100⟩
      (by intro d hd; simp only [List.mem_singleton] at hd; subst hd; decide)).2.2.2.2⟩

end ClaimC5

section ClaimC6

/-- C6: constraint normalization emits a `MinValue`/`MaxValue` (resp.
`MinLength`/`MaxLength`) entry for a `range` (resp. `length`) constraint
exactly when the corresponding bound is present and non-falsy, so a bound of
0 is omitted; in particular `range {min: 0, max: 10}` yields only a
`MaxValue` entry. -/
theorem constraint_min_max_emission (rv : List (String × Value)) :
    _translate_constraints (.list [.map [("range", .map rv)]])
      = .ok ((match rv.lookup "min" with
              | some m => if truthy m then [("MinValue", Value.list [Value.list [m, .null]])] else []
              | none => []) ++
             (match rv.lookup "max" with
              | some x => if truthy x then [("MaxValue", Value.list [Value.list [x, .null]])] else []
              | none => [])) ∧
    _translate_constraints (.list [.map [("length", .map rv)]])
      = .ok ((match rv.lookup "min" with
              | some m => if truthy m then [("MinLength", Value.list [Value.list [m, .null]])] else []
              | none => []) ++
             (match rv.lookup "max" with
              | some x => if truthy x then [("MaxLength", Value.list [Value.list [x, .null]])] else []
              | none => [])) ∧
    _translate_constraints (.list [.map [("range", .map [("min", .int 0), ("max", .int 10)])]])
      = .ok [("MaxValue", .list [.list [.int 10, .null]])] := by
  refine ⟨?_, ?_, ?_⟩
  case refine_3 =>
    rfl
  all_goals rcases hmin : rv.lookup "min" with _ | m
  all_goals rcases hmax : rv.lookup "max" with _ | x
  case refine_1.none.none | refine_2.none.none =>
    simp only [_translate_constraints, constraintsLoop, constraintKeys, add_min_max, pyGet,
      hmin, hmax]
    rfl
  case refine_1.none.some | refine_2.none.some =>
    cases htx : truthy x <;>
      simp only [_translate_constraints, constraintsLoop, constraintKeys, add_min_max, pyGet,
        hmin, hmax, htx] <;>
      rfl
  case refine_1.some.none | refine_2.some.none =>
    cases htm : truthy m <;>
      simp only [_translate_constraints, constraintsLoop, constraintKeys, add_min_max, pyGet,
        hmin, hmax, htm] <;>
      rfl
  case refine_1.some.some | refine_2.some.some =>
    cases htm : truthy m <;> cases htx : truthy x <;>
      simp only [_translate_constraints, constraintsLoop, constraintKeys, add_min_max, pyGet,
        hmin, hmax, htm, htx] <;>
      rfl

end ClaimC6

section ClaimC7

/-- C7: `evaluate` returns an empty action list, leaves state and
`last_evaluated` unchanged, stores nothing and computes no statistic (the
outcome does not depend on the environment or the buffered samples) when the
rule is `SUSPENDED` or when the freshly sampled time is strictly before
`last_evaluated + timeperiod`; otherwise — in particular when exactly
`timeperiod` has elapsed — it runs the full rule. -/
theorem evaluate_rate_limit (env : WEnv) (wr : WatchRule) (tnow : Int) :
    (wr.state = .SUSPENDED → evaluate env wr tnow = ⟨wr, .ok [], 0⟩) ∧
    (wr.state ≠ .SUSPENDED → tnow < wr.last_evaluated + wr.timeperiod →
      evaluate env wr tnow = ⟨{ wr with now := tnow }, .ok [], 0⟩) ∧
    (wr.state ≠ .SUSPENDED → ¬ tnow < wr.last_evaluated + wr.timeperiod →
      evaluate env wr tnow = run_rule env { wr with now := tnow }) := by
  refine ⟨?_, ?_, ?_⟩
  · intro h
    simp [evaluate, h]
  · intro h hr
    simp [evaluate, h, hr]
  · intro h hr
    simp [evaluate, h, hr]

/-- Witness for the C7 theorem: a suspended rule and a rule evaluated one
second early are skipped untouched with no store; at exactly `timeperiod`
elapsed the full rule runs. -/
theorem evaluate_rate_limit_witness :
    evaluate ⟨none⟩ ⟨"w", .SUSPENDED, ⟨"m", "Sum", "GreaterThanThreshold", 0, 60, none, none, none⟩,
        none, 60, none, [], 0, 5⟩ 100
      = ⟨⟨"w", .SUSPENDED, ⟨"m", "Sum", "GreaterThanThreshold", 0, 60, none, none, none⟩,
          none, 60, none, [], 0, 5⟩, .ok [], 0⟩ ∧
    evaluate ⟨none⟩ ⟨"w", .NORMAL, ⟨"m", "Sum", "GreaterThanThreshold", 0, 60, none, none, none⟩,
        none, 60, none, [], 0, 5⟩ 59
      = ⟨⟨"w", .NORMAL, ⟨"m", "Sum", "GreaterThanThreshold", 0, 60, none, none, none⟩,
          none, 60, none, [], 0, 59⟩, .ok [], 0⟩ ∧
    evaluate ⟨none⟩ ⟨"w", .NORMAL, ⟨"m", "Sum", "GreaterThanThreshold", 0, 60, none, none, none⟩,
        none, 60, none, [], 0, 5⟩ 60
      = run_rule ⟨none⟩ ⟨"w", .NORMAL, ⟨"m", "Sum", "GreaterThanThreshold", 0, 60, none, none, none⟩,
          none, 60, none, [], 0, 60⟩ :=
  ⟨(evaluate_rate_limit ⟨none⟩ ⟨"w", .SUSPENDED,
      ⟨"m", "Sum", "GreaterThanThreshold", 0, 60, none, none, none⟩,
      none, 60, none, [], 0, 5⟩ 100).1 rfl,
   (evaluate_rate_limit ⟨none⟩ ⟨"w", .NORMAL,
      ⟨"m", "Sum", "GreaterThanThreshold", 0, 60, none, none, none⟩,
      none, 60, none, [], 0, 5⟩ 59).2.1 (by decide) (by decide),
   (evaluate_rate_limit ⟨none⟩ ⟨"w", .NORMAL,
      ⟨"m", "Sum", "GreaterThanThreshold", 0, 60, none, none, none⟩,
      none, 60, none, [], 0, 5⟩ 60).2.2 (by decide) (by decide)⟩

end ClaimC7

section FilterLemmas

/-- The sum loop ignores samples strictly older than the window start: it
equals the loop over the kept (in-window) samples. -/
theorem sum_loop_filter (metric : String) (cutoff : Int) (wd : List WatchData) (acc : Rat) :
    sum_loop metric cutoff wd acc
      = sum_loop metric cutoff (wd.filter (fun s => decide (cutoff ≤ s.created_at))) acc := by
  induction wd generalizing acc with
  | nil => rfl
  | cons d ds ih =>
    by_cases hc : d.created_at < cutoff
    · have hf : decide (cutoff ≤ d.created_at) = false := decide_eq_false (by omega)
      simp only [List.filter_cons, hf, Bool.false_eq_true, if_false, sum_loop, if_pos hc]
      exact ih acc
    · have ht : decide (cutoff ≤ d.created_at) = true := decide_eq_true (by omega)
      simp only [List.filter_cons, ht, if_true, sum_loop, if_neg hc]
      cases hg : getVal d metric with
      | none => rfl
      | some v => exact ih (acc + v)

/-- The maximum loop ignores samples strictly older than the window
start. -/
theorem max_loop_filter (metric : String) (cutoff : Int) (wd : List WatchData)
    (acc : Rat) (hasData : Bool) :
    max_loop metric cutoff wd acc hasData
      = max_loop metric cutoff (wd.filter (fun s => decide (cutoff ≤ s.created_at))) acc hasData := by
  induction wd generalizing acc hasData with
  | nil => rfl
  | cons d ds ih =>
    by_cases hc : d.created_at < cutoff
    · have hf : decide (cutoff ≤ d.created_at) = false := decide_eq_false (by omega)
      simp only [List.filter_cons, hf, Bool.false_eq_true, if_false, max_loop, if_pos hc]
      exact ih acc hasData
    · have ht : decide (cutoff ≤ d.created_at) = true := decide_eq_true (by omega)
      simp only [List.filter_cons, ht, if_true, max_loop, if_neg hc]
      cases hg : getVal d metric with
      | none => rfl
      | some v => exact ih _ _

/-- The minimum loop ignores samples strictly older than the window
start. -/
theorem min_loop_filter (metric : String) (cutoff : Int) (wd : List WatchData)
    (acc : Rat) (hasData : Bool) :
    min_loop metric cutoff wd acc hasData
      = min_loop metric cutoff (wd.filter (fun s => decide (cutoff ≤ s.created_at))) acc hasData := by
  induction wd generalizing acc hasData with
  | nil => rfl
  | cons d ds ih =>
    by_cases hc : d.created_at < cutoff
    · have hf : decide (cutoff ≤ d.created_at) = false := decide_eq_false (by omega)
      simp only [List.filter_cons, hf, Bool.false_eq_true, if_false, min_loop, if_pos hc]
      exact ih acc hasData
    · have ht : decide (cutoff ≤ d.created_at) = true := decide_eq_true (by omega)
      simp only [List.filter_cons, ht, if_true, min_loop, if_neg hc]
      cases hg : getVal d metric with
      | none => rfl
      | some v =>
        cases hasData with
        | false => exact ih _ _
        | true =>
          by_cases hv : v < acc
          · simp only [Bool.not_true, Bool.false_eq_true, if_false, if_pos hv]
            exact ih _ _
          · simp only [Bool.not_true, Bool.false_eq_true, if_false, if_neg hv]
            exact ih _ _

/-- The sample-count loop ignores samples strictly older than the window
start. -/
theorem count_loop_filter (cutoff : Int) (wd : List WatchData) (acc : Nat) :
    count_loop cutoff wd acc
      = count_loop cutoff (wd.filter (fun s => decide (cutoff ≤ s.created_at))) acc := by
  induction wd generalizing acc with
  | nil => rfl
  | cons d ds ih =>
    by_cases hc : d.created_at < cutoff
    · have hf : decide (cutoff ≤ d.created_at) = false := decide_eq_false (by omega)
      simp only [List.filter_cons, hf, Bool.false_eq_true, if_false, count_loop, if_pos hc]
      exact ih acc
    · have ht : decide (cutoff ≤ d.created_at) = true := decide_eq_true (by omega)
      simp only [List.filter_cons, ht, if_true, count_loop, if_neg hc]
      exact ih (acc + 1)

/-- The average loop ignores samples strictly older than the window
start. -/
theorem avg_loop_filter (metric : String) (cutoff : Int) (wd : List WatchData)
    (acc : Rat) (samples : Nat) :
    avg_loop metric cutoff wd acc samples
      = avg_loop metric cutoff (wd.filter (fun s => decide (cutoff ≤ s.created_at))) acc samples := by
  induction wd generalizing acc samples with
  | nil => rfl
  | cons d ds ih =>
    by_cases hc : d.created_at < cutoff
    · have hf : decide (cutoff ≤ d.created_at) = false := decide_eq_false (by omega)
      simp only [List.filter_cons, hf, Bool.false_eq_true, if_false, avg_loop, if_pos hc]
      exact ih acc samples
    · have ht : decide (cutoff ≤ d.created_at) = true := decide_eq_true (by omega)
      simp only [List.filter_cons, ht, if_true, avg_loop, if_neg hc]
      cases hg : getVal d metric with
      | none => rfl
      | some v => exact ih _ _

end FilterLemmas

section ClaimC8

/-- C8: every statistic function considers exactly the samples whose
`created_at` is at least `now - timeperiod` — each equals itself run on the
samples kept by that window predicate, the predicate rejects a sample
strictly before the window start and keeps one exactly at it — and the `now`
these statistics use inside `evaluate` is the freshly sampled one, not the
one stored at construction (a non-suspended evaluation is independent of the
stored `now`). -/
theorem statistic_window_filter (wr : WatchRule) (d : WatchData) (env : WEnv)
    (tnow n2 : Int) :
    do_Maximum wr = do_Maximum { wr with
      watch_data := wr.watch_data.filter
        (fun s => decide (wr.now - wr.timeperiod ≤ s.created_at)) } ∧
    do_Minimum wr = do_Minimum { wr with
      watch_data := wr.watch_data.filter
        (fun s => decide (wr.now - wr.timeperiod ≤ s.created_at)) } ∧
    do_SampleCount wr = do_SampleCount { wr with
      watch_data := wr.watch_data.filter
        (fun s => decide (wr.now - wr.timeperiod ≤ s.created_at)) } ∧
    do_Average wr = do_Average { wr with
      watch_data := wr.watch_data.filter
        (fun s => decide (wr.now - wr.timeperiod ≤ s.created_at)) } ∧
    do_Sum wr = do_Sum { wr with
      watch_data := wr.watch_data.filter
        (fun s => decide (wr.now - wr.timeperiod ≤ s.created_at)) } ∧
    (d.created_at < wr.now - wr.timeperiod →
      decide (wr.now - wr.timeperiod ≤ d.created_at) = false) ∧
    (d.created_at = wr.now - wr.timeperiod →
      decide (wr.now - wr.timeperiod ≤ d.created_at) = true) ∧
    (wr.state ≠ .SUSPENDED →
      evaluate env { wr with now := n2 } tnow = evaluate env wr tnow) := by
  refine ⟨?_, ?_, ?_, ?_, ?_, ?_, ?_, ?_⟩
  · simp only [do_Maximum]
    rw [max_loop_filter]
    rfl
  · simp only [do_Minimum]
    rw [min_loop_filter]
    rfl
  · simp only [do_SampleCount]
    rw [count_loop_filter]
    rfl
  · simp only [do_Average]
    rw [avg_loop_filter]
    rfl
  · simp only [do_Sum]
    rw [sum_loop_filter]
    rfl
  · intro h
    exact decide_eq_false (by omega)
  · intro h
    exact decide_eq_true (by omega)
  · intro h
    simp [evaluate, h]

/-- Witness for the C8 theorem: with `now = 100` and `timeperiod = 60`, a
sample at time 39 is rejected, a sample exactly at the window start 40 is
kept, and a non-suspended evaluation is unchanged when the constructed `now`
is overwritten. -/
theorem statistic_window_filter_witness :
    decide ((100 : Int) - 60 ≤ (39 : Int)) = false ∧
    decide ((100 : Int) - 60 ≤ (40 : Int)) = true ∧
    evaluate ⟨none⟩ ⟨"w", .NORMAL, ⟨"m", "Sum", "GreaterThanThreshold", 0, 60, none, none, none⟩,
        none, 60, none, [], 0, 777⟩ 60
      = evaluate ⟨none⟩ ⟨"w", .NORMAL, ⟨"m", "Sum", "GreaterThanThreshold", 0, 60, none, none, none⟩,
        none, 60, none, [], 0, 5⟩ 60 :=
  ⟨(statistic_window_filter
      ⟨"w", .NORMAL, ⟨"m", "Sum", "GreaterThanThreshold", 0, 60, none, none, none⟩,
        none, 60, none, [], 0, 100⟩ ⟨39, []⟩ ⟨none⟩ 60 777).2.2.2.2.2.1 (by decide),
   (statistic_window_filter
      ⟨"w", .NORMAL, ⟨"m", "Sum", "GreaterThanThreshold", 0, 60, none, none, none⟩,
        none, 60, none, [], 0, 100⟩ ⟨40, []⟩ ⟨none⟩ 60 777).2.2.2.2.2.2.1 (by decide),
   (statistic_window_filter
      ⟨"w", .NORMAL, ⟨"m", "Sum", "GreaterThanThreshold", 0, 60, none, none, none⟩,
        none, 60, none, [], 0, 5⟩ ⟨40, []⟩ ⟨none⟩ 60 777).2.2.2.2.2.2.2 (by decide)⟩

end ClaimC8

section ClaimC9

/-- C9: `create_watch_data` persists no record while the rule is
`SUSPENDED` (regardless of the sample) or when the sample does not contain
the rule's metric name; otherwise it persists exactly one new sample
record. -/
theorem create_watch_data_guards (wr : WatchRule) (data : SampleData) :
    (wr.state = .SUSPENDED → create_watch_data wr data = none) ∧
    (data.lookup wr.rule.MetricName = none → create_watch_data wr data = none) ∧
    (wr.state ≠ .SUSPENDED → (data.lookup wr.rule.MetricName).isSome = true →
      create_watch_data wr data = some ⟨data, wr.id⟩) := by
  refine ⟨?_, ?_, ?_⟩
  · intro h
    simp [create_watch_data, h]
  · intro h
    by_cases hs : wr.state = .SUSPENDED <;> simp [create_watch_data, hs, h]
  · intro h1 h2
    rcases hl : data.lookup wr.rule.MetricName with _ | e
    · rw [hl] at h2
      simp at h2
    · simp [create_watch_data, h1, hl]

/-- Witness for the C9 theorem: a suspended rule ignores a matching sample,
an active rule ignores a sample without its metric, and an active rule
persists one record for a matching sample. -/
theorem create_watch_data_guards_witness :
    create_watch_data ⟨"w", .SUSPENDED, ⟨"m", "Sum", "GreaterThanThreshold", 0, 60, none, none, none⟩,
        none, 60, some 7, [], 0, 5⟩ [("m", [("Value", 1)])] = none ∧
    create_watch_data ⟨"w", .NORMAL, ⟨"m", "Sum", "GreaterThanThreshold", 0, 60, none, none, none⟩,
        none, 60, some 7, [], 0, 5⟩ [("other", [("Value", 1)])] = none ∧
    create_watch_data ⟨"w", .NORMAL, ⟨"m", "Sum", "GreaterThanThreshold", 0, 60, none, none, none⟩,
        none, 60, some 7, [], 0, 5⟩ [("m", [("Value", 1)])]
      = some ⟨[("m", [("Value", 1)])], some 7⟩ :=
  ⟨(create_watch_data_guards ⟨"w", .SUSPENDED,
      ⟨"m", "Sum", "GreaterThanThreshold", 0, 60, none, none, none⟩,
      none, 60, some 7, [], 0, 5⟩ [("m", [("Value", 1)])]).1 rfl,
   (create_watch_data_guards ⟨"w", .NORMAL,
      ⟨"m", "Sum", "GreaterThanThreshold", 0, 60, none, none, none⟩,
      none, 60, some 7, [], 0, 5⟩ [("other", [("Value", 1)])]).2.1 rfl,
   (create_watch_data_guards ⟨"w", .NORMAL,
      ⟨"m", "Sum", "GreaterThanThreshold", 0, 60, none, none, none⟩,
      none, 60, some 7, [], 0, 5⟩ [("m", [("Value", 1)])]).2.2 (by decide) rfl⟩

end ClaimC9

section ClaimC10

/-- C10: `set_watch_state` never modifies the rule object and never
persists, for every target state; and a target equal to the current state
yields the empty action list without consulting the environment or the
configured actions. -/
theorem set_watch_state_frame (env : WEnv) (wr : WatchRule) (st : WState) :
    (set_watch_state env wr st).wr = wr ∧
    (set_watch_state env wr st).stores = 0 ∧
    (st = wr.state → set_watch_state env wr st = ⟨wr, .ok [], 0⟩) := by
  refine ⟨?_, ?_, ?_⟩
  · by_cases h : st = wr.state
    · simp [set_watch_state, h]
    · cases hr : rule_actions env wr st <;> simp [set_watch_state, h, hr]
  · by_cases h : st = wr.state
    · simp [set_watch_state, h]
    · cases hr : rule_actions env wr st <;> simp [set_watch_state, h, hr]
  · intro h
    simp [set_watch_state, h]

/-- Witness for the C10 theorem: a rule in state `NORMAL` with `OKActions`
configured and a live stack — the rule object and store count are untouched
when overriding to `ALARM`, and targeting the current state `NORMAL` returns
no actions even though `OKActions` is configured. -/
theorem set_watch_state_frame_witness :
    (set_watch_state ⟨some ⟨"CREATE", "COMPLETE"⟩⟩
        ⟨"w", .NORMAL, ⟨"m", "Sum", "GreaterThanThreshold", 0, 60, some ["a1"], some ["a2"], none⟩,
          none, 60, none, [], 0, 5⟩ .ALARM).wr
      = ⟨"w", .NORMAL, ⟨"m", "Sum", "GreaterThanThreshold", 0, 60, some ["a1"], some ["a2"], none⟩,
          none, 60, none, [], 0, 5⟩ ∧
    (set_watch_state ⟨some ⟨"CREATE", "COMPLETE"⟩⟩
        ⟨"w", .NORMAL, ⟨"m", "Sum", "GreaterThanThreshold", 0, 60, some ["a1"], some ["a2"], none⟩,
          none, 60, none, [], 0, 5⟩ .ALARM).stores = 0 ∧
    set_watch_state ⟨some ⟨"CREATE", "COMPLETE"⟩⟩
        ⟨"w", .NORMAL, ⟨"m", "Sum", "GreaterThanThreshold", 0, 60, some ["a1"], some ["a2"], none⟩,
          none, 60, none, [], 0, 5⟩ .NORMAL
      = ⟨⟨"w", .NORMAL, ⟨"m", "Sum", "GreaterThanThreshold", 0, 60, some ["a1"], some ["a2"], none⟩,
          none, 60, none, [], 0, 5⟩, .ok [], 0⟩ :=
  ⟨(set_watch_state_frame ⟨some ⟨"CREATE", "COMPLETE"⟩⟩
      ⟨"w", .NORMAL, ⟨"m", "Sum", "GreaterThanThreshold", 0, 60, some ["a1"], some ["a2"], none⟩,
        none, 60, none, [], 0, 5⟩ .ALARM).1,
   (set_watch_state_frame ⟨some ⟨"CREATE", "COMPLETE"⟩⟩
      ⟨"w", .NORMAL, ⟨"m", "Sum", "GreaterThanThreshold", 0, 60, some ["a1"], some ["a2"], none⟩,
        none, 60, none, [], 0, 5⟩ .ALARM).2.1,
   (set_watch_state_frame ⟨some ⟨"CREATE", "COMPLETE"⟩⟩
      ⟨"w", .NORMAL, ⟨"m", "Sum", "GreaterThanThreshold", 0, 60, some ["a1"], some ["a2"], none⟩,
        none, 60, none, [], 0, 5⟩ .NORMAL).2.2 rfl⟩

end ClaimC10

end Heat
